import Mathlib

/-!
Verification of the flaky-load-balancer bandit core.

This file gives a shallow embedding, in Lean, of the data model and the
operations of the flaky_load_balancer package (constants.py, strategies/,
metrics.py, api/endpoints/root.py, main.py), and proves or refutes the
frozen claims about it.

Modelling conventions:

* Python floats are modelled as exact rationals.  Every quantity handled by
  the claims (latency sums, alpha/beta, success rates, timestamps) is built
  from integer counters and exact division, so rational arithmetic mirrors
  the source computations.
* Python dicts keyed by port are modelled as total functions from Nat.  The
  strategies construct an entry for every port of their tier and only ever
  look up those ports, so the two views agree on every reachable access.
* A Python dataclass instance can gain attributes at runtime by assignment.
  The dataclass ServerStats of constants.py (lines 19 to 29) declares the
  fields port, num_success, num_failure, num_requests, total_latency_ms,
  alpha and beta, and nothing else; in particular it declares neither
  num_rate_limited nor last_rate_limited_at, although
  strategies/rate_limit_base.py reads and writes both.  Reading an attribute
  that has never been assigned raises AttributeError.  We therefore model
  these two attributes as Option-valued slots whose value none means the
  attribute is absent, and the operations that read them return an Except
  that carries the AttributeError message on the absent case.
-/

namespace FLB

/-- Outcome of one downstream call (http_client.RequestOutcome):
2xx maps to SUCCESS, 429 to RATE_LIMITED, anything else to FAILURE. -/
inductive RequestOutcome
  | SUCCESS
  | RATE_LIMITED
  | FAILURE
deriving DecidableEq, Repr

/-- constants.ServerStats.  The first seven fields are the declared dataclass
fields (constants.py lines 19 to 29).  The last two model the dynamically
assigned attributes used by strategies/rate_limit_base.py: value none means
the attribute has never been assigned (so reading it raises AttributeError).
For last_rate_limited_at the inner Option mirrors the Python value space of
the attribute once assigned (the code compares it against None even though
only floats are ever assigned to it). -/
structure ServerStats where
  port : Nat
  num_success : Nat
  num_failure : Nat
  num_requests : Nat
  total_latency_ms : ℚ
  alpha : ℚ
  beta : ℚ
  num_rate_limited : Option Nat
  last_rate_limited_at : Option (Option ℚ)
deriving DecidableEq, Repr

/-- A freshly constructed ServerStats(port=port): counters zero, Beta(1,1)
prior, and the two dynamic attributes absent. -/
def ServerStats.init (port : Nat) : ServerStats :=
  { port := port
    num_success := 0
    num_failure := 0
    num_requests := 0
    total_latency_ms := 0
    alpha := 1
    beta := 1
    num_rate_limited := none
    last_rate_limited_at := none }

/-- constants.ServerStats.success_rate: num_success / num_requests, and 0.0
when the arm is untried. -/
def ServerStats.success_rate (s : ServerStats) : ℚ :=
  if s.num_requests = 0 then 0 else (s.num_success : ℚ) / (s.num_requests : ℚ)

/-- constants.CONFIG_PORTS for tier T1, list(range(4000, 4010)). -/
def T1_PORTS : List Nat :=
  [4000, 4001, 4002, 4003, 4004, 4005, 4006, 4007, 4008, 4009]

/-- constants.CONFIG_PORTS for tier T2, list(range(5000, 5010)). -/
def T2_PORTS : List Nat :=
  [5000, 5001, 5002, 5003, 5004, 5005, 5006, 5007, 5008, 5009]

/-- constants.CONFIG_PORTS for tier T3, list(range(6000, 6010)). -/
def T3_PORTS : List Nat :=
  [6000, 6001, 6002, 6003, 6004, 6005, 6006, 6007, 6008, 6009]

/-- constants.DOWNSTREAM_SERVER_CONFIGS: each port paired with the tier tag
of its ServerConfig, in dict insertion order. -/
def DOWNSTREAM_SERVER_CONFIGS : List (Nat × String) :=
  (T1_PORTS.map (fun p => (p, "T1"))) ++
    (T2_PORTS.map (fun p => (p, "T2"))) ++
    (T3_PORTS.map (fun p => (p, "T3")))

/-- strategies/factory.get_strategy filters DOWNSTREAM_SERVER_CONFIGS down to
the entries of the requested tier; BaseStrategy.get_ports then yields their
ports in insertion order.  This is the candidate arm list of a
factory-constructed strategy. -/
def get_strategy_ports (config_target : String) : List Nat :=
  (DOWNSTREAM_SERVER_CONFIGS.filter (fun pc => pc.2 = config_target)).map (fun pc => pc.1)

/-- The state owned by BaseStrategy: one ServerStats per port (the dict
self.server_stats, modelled as a total function). -/
def StatsMap : Type := Nat → ServerStats

/-- The server_stats dict built by the BaseStrategy constructor:
ServerStats(port=port) for every port. -/
def initStats : StatsMap := fun p => ServerStats.init p

/-- BaseStrategy._update_stats (strategies/base.py lines 62 to 69): bump
num_requests and the latency sum, then one of num_success / num_failure. -/
def update_stats (s : ServerStats) (success : Bool) (latency_ms : ℚ) : ServerStats :=
  { s with
    num_requests := s.num_requests + 1
    total_latency_ms := s.total_latency_ms + latency_ms
    num_success := if success then s.num_success + 1 else s.num_success
    num_failure := if success then s.num_failure else s.num_failure + 1 }

/-- The update method shared, textually, by every Thompson-family strategy
(v4_thompson.py lines 56 to 75, and identically in v5, v6, v7 and v8 for the
stored stats): alpha + 1 on success, beta + 1 on failure, then
_update_stats. -/
def thompson_update (s : ServerStats) (success : Bool) (latency_ms : ℚ) : ServerStats :=
  update_stats
    (if success then { s with alpha := s.alpha + 1 } else { s with beta := s.beta + 1 })
    success latency_ms

/-- The AttributeError message raised when a ServerStats attribute that was
never assigned is read. -/
def attrError (attr : String) : String :=
  "AttributeError: ServerStats object has no attribute " ++ attr

/-- RateLimitAwareStrategy.update_rate_limited (rate_limit_base.py lines 38
to 53).  Its first statement reads stats.num_rate_limited (the augmented
assignment on line 49 reads before it writes); on every reachable
ServerStats that attribute is absent, so the read raises AttributeError and
none of the four field updates happens.  The some branch embeds the updates
the source performs when the attribute exists. -/
def update_rate_limited (s : ServerStats) (latency_ms : ℚ) (now : ℚ) :
    Except String ServerStats :=
  match s.num_rate_limited with
  | none => .error (attrError "num_rate_limited")
  | some n =>
    .ok { s with
          num_rate_limited := some (n + 1)
          last_rate_limited_at := some (some now)
          num_requests := s.num_requests + 1
          total_latency_ms := s.total_latency_ms + latency_ms }

/-- RateLimitAwareStrategy.is_rate_limited (rate_limit_base.py lines 55 to
68).  Reads stats.last_rate_limited_at: absent attribute raises
AttributeError; the value None yields False; a timestamp t yields
(now - t < cooldown). -/
def is_rate_limited (s : ServerStats) (cooldown_seconds now : ℚ) : Except String Bool :=
  match s.last_rate_limited_at with
  | none => .error (attrError "last_rate_limited_at")
  | some none => .ok false
  | some (some t) => .ok (decide (now - t < cooldown_seconds))

/-- C1.  The spec: update_rate_limited(port, latency_ms) MUST increment
num_rate_limited, num_requests and total_latency_ms, stamp
last_rate_limited_at, and leave alpha, beta, num_success, num_failure
unchanged.  The code instead raises AttributeError at once, for every port
and every argument, because the ServerStats dataclass never declares
num_rate_limited: the augmented assignment on rate_limit_base.py line 49
reads the absent attribute.  No counter is updated. -/
theorem update_rate_limited_raises_attribute_error
    (port : Nat) (latency_ms now : ℚ) :
    update_rate_limited (ServerStats.init port) latency_ms now =
      .error (attrError "num_rate_limited") := rfl

/-- BaseStrategy.get_best_server scan (strategies/base.py lines 45 to 50):
walk the ports, replacing the incumbent only when the arm has been tried and
strictly beats the best rate seen so far. -/
def best_scan (stats : StatsMap) : List Nat → Nat → ℚ → Nat
  | [], best, _ => best
  | p :: rest, best, bestRate =>
    if 0 < (stats p).num_requests ∧ bestRate < (stats p).success_rate then
      best_scan stats rest p ((stats p).success_rate)
    else
      best_scan stats rest best bestRate

/-- BaseStrategy.get_best_server (strategies/base.py lines 35 to 51):
best_port starts at target_ports[0], best_rate at -1.0.  The tier list of a
factory-constructed strategy is never empty, so headD only ever takes the
head. -/
def get_best_server (stats : StatsMap) (ports : List Nat) : Nat :=
  best_scan stats ports (ports.headD 0) (-1)

/-- RateLimitAwareStrategy.get_available_servers (rate_limit_base.py lines 70
to 81): the list comprehension keeps the ports that are not excluded and not
rate-limited, evaluating is_rate_limited element by element, so the first
non-excluded port raises if its last_rate_limited_at attribute is absent. -/
def get_available_servers (stats : StatsMap) (ports excluded : List Nat)
    (cooldown_seconds now : ℚ) : Except String (List Nat) :=
  match ports with
  | [] => .ok []
  | p :: rest =>
    if p ∈ excluded then
      get_available_servers stats rest excluded cooldown_seconds now
    else do
      let rl ← is_rate_limited (stats p) cooldown_seconds now
      let tail ← get_available_servers stats rest excluded cooldown_seconds now
      pure (if rl then tail else p :: tail)

/-- The comprehension on v6_thompson_masked.py lines 49 to 51 (and verbatim
on v7_sliding_window.py lines 78 to 80): ports that are not excluded and ARE
rate-limited, with the same element-by-element evaluation order. -/
def rate_limited_port_list (stats : StatsMap) (ports excluded : List Nat)
    (cooldown_seconds now : ℚ) : Except String (List Nat) :=
  match ports with
  | [] => .ok []
  | p :: rest =>
    if p ∈ excluded then
      rate_limited_port_list stats rest excluded cooldown_seconds now
    else do
      let rl ← is_rate_limited (stats p) cooldown_seconds now
      let tail ← rate_limited_port_list stats rest excluded cooldown_seconds now
      pure (if rl then p :: tail else tail)

/-- Scan of RateLimitAwareStrategy.get_least_recently_rate_limited
(rate_limit_base.py lines 92 to 104): oldest_time starts at float inf
(modelled as none); a port whose attribute holds None is returned at once;
an absent attribute raises AttributeError. -/
def least_recent_scan (stats : StatsMap) : List Nat → Nat → Option ℚ → Except String Nat
  | [], best, _ => .ok best
  | p :: rest, best, oldest =>
    match (stats p).last_rate_limited_at with
    | none => .error (attrError "last_rate_limited_at")
    | some none => .ok p
    | some (some t) =>
      match oldest with
      | none => least_recent_scan stats rest p (some t)
      | some o =>
        if t < o then least_recent_scan stats rest p (some t)
        else least_recent_scan stats rest best oldest

/-- RateLimitAwareStrategy.get_least_recently_rate_limited (rate_limit_base.py
lines 83 to 104). -/
def get_least_recently_rate_limited (stats : StatsMap) (ports : List Nat) :
    Except String Nat :=
  least_recent_scan stats ports (ports.headD 0) none

/-- The Thompson sampling argmax loop shared by v4/v5/v6/v7/v8 select_server:
best_sample starts at -1.0 and each port of the list draws one sample, the
draw for port p being the oracle value sample p. -/
def scan_beta_argmax (sample : Nat → ℚ) : List Nat → Nat → ℚ → Nat
  | [], best, _ => best
  | p :: rest, best, bestSample =>
    if bestSample < sample p then scan_beta_argmax sample rest p (sample p)
    else scan_beta_argmax sample rest best bestSample

/-- ThompsonMaskedStrategy.select_server (v6_thompson_masked.py lines 31 to
71).  The sampling oracle stands for the random.betavariate draws; the error
path never consults it.  SlidingWindowStrategy.select_server
(v7_sliding_window.py lines 61 to 97) has the identical control flow, with
the samples drawn from window-derived Beta parameters. -/
def v6_select_server (stats : StatsMap) (ports excluded : List Nat) (attempt : Nat)
    (cooldown_seconds now : ℚ) (sample : Nat → ℚ) : Except String Nat := do
  let _ := attempt
  let available ← get_available_servers stats ports excluded cooldown_seconds now
  match available with
  | [] => do
    let rls ← rate_limited_port_list stats ports excluded cooldown_seconds now
    if rls.isEmpty then pure (get_best_server stats ports)
    else get_least_recently_rate_limited stats ports
  | p :: rest => pure (scan_beta_argmax sample (p :: rest) p (-1))

/-- C2.  The spec: the strategy contract is total, and in particular v6/v7
select_server succeeds even when no arm has ever been rate-limited.  On a
freshly constructed v6 (or v7) strategy over T1, select_server(set(), 0)
raises AttributeError instead: get_available_servers calls is_rate_limited
on port 4000, which reads the absent last_rate_limited_at attribute. -/
theorem v6_select_server_raises_on_fresh_strategy
    (attempt : Nat) (cooldown_seconds now : ℚ) (sample : Nat → ℚ) :
    v6_select_server initStats T1_PORTS [] attempt cooldown_seconds now sample =
      .error (attrError "last_rate_limited_at") := rfl

/-- BlockingState of v8_blocking_bandit.py lines 15 to 22. -/
structure BlockingState where
  port : Nat
  blocked_until : ℚ
  consecutive_429s : Nat
  current_multiplier : Nat
deriving DecidableEq, Repr

/-- A freshly constructed BlockingState(port=port). -/
def BlockingState.init (port : Nat) : BlockingState :=
  { port := port, blocked_until := 0, consecutive_429s := 0, current_multiplier := 1 }

/-- The mutable state of BlockingBanditStrategy: the inherited server_stats
dict plus the blocking_state dict. -/
structure V8State where
  stats : StatsMap
  blocking : Nat → BlockingState

/-- The state of a freshly constructed BlockingBanditStrategy. -/
def V8State.init : V8State :=
  { stats := initStats, blocking := fun p => BlockingState.init p }

/-- v8_blocking_bandit.MAX_BACKOFF_MULTIPLIER. -/
def MAX_BACKOFF_MULTIPLIER : Nat := 4

/-- BlockingBanditStrategy.update_rate_limited (v8_blocking_bandit.py lines
138 to 159): first the super() call (rate_limit_base.py update_rate_limited),
then consecutive_429s + 1, the multiplier doubling capped at
MAX_BACKOFF_MULTIPLIER, and the new blocked_until.  When the super() call
raises, the backoff lines never run. -/
def v8_update_rate_limited (st : V8State) (port : Nat)
    (latency_ms now block_duration : ℚ) : Except String V8State := do
  let s ← update_rate_limited (st.stats port) latency_ms now
  let b := st.blocking port
  let m := min (b.current_multiplier * 2) MAX_BACKOFF_MULTIPLIER
  pure { stats := fun p => if p = port then s else st.stats p
         blocking := fun p =>
           if p = port then
             { b with
               consecutive_429s := b.consecutive_429s + 1
               current_multiplier := m
               blocked_until := now + block_duration * (m : ℚ) }
           else st.blocking p }

/-- BlockingBanditStrategy.update (v8_blocking_bandit.py lines 161 to 184):
the Thompson update on the stats, and on success a reset of the backoff
state. -/
def v8_update (st : V8State) (port : Nat) (success : Bool) (latency_ms : ℚ) : V8State :=
  { stats := fun p =>
      if p = port then thompson_update (st.stats p) success latency_ms else st.stats p
    blocking := fun p =>
      if p = port ∧ success then
        { st.blocking p with consecutive_429s := 0, current_multiplier := 1 }
      else st.blocking p }

/-- C9.  The spec: each v8 update_rate_limited call increments
consecutive_429s, doubles current_multiplier capped at 4, and sets
blocked_until.  The code never reaches that backoff logic: the inherited
update_rate_limited raises AttributeError first (absent num_rate_limited
attribute on ServerStats), so the call fails and the blocking state is left
untouched, for every port and every argument. -/
theorem v8_update_rate_limited_raises
    (port : Nat) (latency_ms now block_duration : ℚ) :
    v8_update_rate_limited V8State.init port latency_ms now block_duration =
      .error (attrError "num_rate_limited") := rfl

/-- config.py lines 13 to 17: LB_CONFIG_TARGET is read from the environment
with default T1 and validated against T1/T2/T3; any other value raises
AssertionError at import time. -/
def read_LB_CONFIG_TARGET (env : Option String) : Except String String :=
  let v := env.getD "T1"
  if v = "T1" ∨ v = "T2" ∨ v = "T3" then .ok v
  else .error "AssertionError: LB_CONFIG_TARGET must be one of T1, T2, T3"

/-- main.lifespan (main.py line 24) initialises the global strategy with
init_strategy(LB_STRATEGY, config_target="T1"): the tier the constructed
strategy receives is the literal "T1", whatever config.LB_CONFIG_TARGET
resolved to. -/
def lifespan_config_target (lbConfigTarget : String) : String :=
  let _ := lbConfigTarget
  "T1"

/-- C3.  The spec: the strategy created in the application lifespan has the
config_target named by LB_CONFIG_TARGET.  With LB_CONFIG_TARGET=T2 the
environment value parses to T2, yet the lifespan constructs the strategy
with config_target "T1", whose candidate arms are the T1 ports 4000..4009
rather than the T2 ports. -/
theorem lifespan_ignores_config_target :
    read_LB_CONFIG_TARGET (some "T2") = .ok "T2" ∧
    lifespan_config_target "T2" = "T1" ∧
    get_strategy_ports (lifespan_config_target "T2") = T1_PORTS ∧
    get_strategy_ports "T2" = T2_PORTS ∧
    T1_PORTS ≠ T2_PORTS := by
  refine ⟨rfl, rfl, by decide, by decide, by decide⟩

/-- Modelled from the claim under test for C5 (the spec reading): the port
with the highest success_rate, an untried arm counting as success_rate 0,
ties broken by the first port in iteration order.  The first port is the
initial incumbent with its own rate, and only a strictly greater rate
replaces it. -/
def spec_best_server (stats : StatsMap) (ports : List Nat) : Nat :=
  match ports with
  | [] => 0
  | p :: rest =>
    rest.foldl
      (fun b q => if (stats b).success_rate < (stats q).success_rate then q else b) p

/-- A strategy state with port 4001 tried once and failed (success_rate 0)
and every other arm untried. -/
def statsC5 : StatsMap := fun p =>
  if p = 4001 then update_stats (ServerStats.init 4001) false 5 else ServerStats.init p

/-- C5 counterexample.  On statsC5 every arm has success_rate 0, so under
the claim the tie goes to the first port 4000; get_best_server skips
untried arms (the num_requests > 0 guard on base.py line 47) and returns
the tried arm 4001 instead. -/
theorem get_best_server_tie_break_differs :
    get_best_server statsC5 T1_PORTS = 4001 ∧
    spec_best_server statsC5 T1_PORTS = 4000 ∧
    get_best_server statsC5 T1_PORTS ≠ spec_best_server statsC5 T1_PORTS := by
  have h1 : get_best_server statsC5 T1_PORTS = 4001 := by
    norm_num [get_best_server, T1_PORTS, best_scan, statsC5, update_stats,
      ServerStats.init, ServerStats.success_rate]
  have h2 : spec_best_server statsC5 T1_PORTS = 4000 := by
    norm_num [spec_best_server, T1_PORTS, statsC5, update_stats,
      ServerStats.init, ServerStats.success_rate]
  refine ⟨h1, h2, by rw [h1, h2]; decide⟩

/-- The scan get_best_server actually performs, stated directly over the
filtered list: among the tried arms (num_requests > 0), the first one
attaining the maximal success_rate; the first port when no arm is tried. -/
def first_best_aux (stats : StatsMap) (b0 : Nat) (l : List Nat) : Nat :=
  match l.filter (fun p => decide (0 < (stats p).num_requests)) with
  | [] => b0
  | q :: rest =>
    rest.foldl
      (fun b r => if (stats b).success_rate < (stats r).success_rate then r else b) q

/-- The amended best-server description: first maximal tried arm, or the
first port of the tier when nothing is tried yet. -/
def first_best_tried (stats : StatsMap) (ports : List Nat) : Nat :=
  first_best_aux stats (ports.headD 0) ports

lemma success_rate_nonneg (s : ServerStats) : 0 ≤ s.success_rate := by
  unfold ServerStats.success_rate
  split
  · exact le_refl 0
  · positivity

lemma best_scan_tried (stats : StatsMap) (l : List Nat) :
    ∀ best : Nat, 0 < (stats best).num_requests →
      best_scan stats l best ((stats best).success_rate) =
        (l.filter (fun p => decide (0 < (stats p).num_requests))).foldl
          (fun b r => if (stats b).success_rate < (stats r).success_rate then r else b)
          best := by
  induction l with
  | nil => intro best _; rfl
  | cons p rest ih =>
    intro best hb
    simp only [best_scan, List.filter_cons, decide_eq_true_eq]
    by_cases hp : 0 < (stats p).num_requests
    · simp only [if_pos hp]
      by_cases hlt : (stats best).success_rate < (stats p).success_rate
      · rw [if_pos ⟨hp, hlt⟩, ih p hp, List.foldl_cons, if_pos hlt]
      · rw [if_neg (fun hc => hlt hc.2), List.foldl_cons, if_neg hlt, ih best hb]
    · rw [if_neg (fun hc => hp hc.1), if_neg hp]
      exact ih best hb

lemma best_scan_init (stats : StatsMap) (l : List Nat) :
    ∀ b0 : Nat, best_scan stats l b0 (-1) = first_best_aux stats b0 l := by
  induction l with
  | nil => intro b0; rfl
  | cons p rest ih =>
    intro b0
    simp only [best_scan, first_best_aux, List.filter_cons, decide_eq_true_eq]
    by_cases hp : 0 < (stats p).num_requests
    · have hneg : (-1 : ℚ) < (stats p).success_rate :=
        lt_of_lt_of_le (by norm_num) (success_rate_nonneg (stats p))
      rw [if_pos ⟨hp, hneg⟩, if_pos hp]
      exact best_scan_tried stats rest p hp
    · rw [if_neg (fun hc => hp hc.1), if_neg hp]
      exact ih b0

lemma rate_foldl_mem (stats : StatsMap) (l : List Nat) :
    ∀ b : Nat,
      l.foldl
        (fun b r => if (stats b).success_rate < (stats r).success_rate then r else b) b
        ∈ b :: l := by
  induction l with
  | nil => intro b; simp
  | cons q rest ih =>
    intro b
    simp only [List.foldl_cons]
    by_cases hc : (stats b).success_rate < (stats q).success_rate
    · rw [if_pos hc]
      have h := ih q
      simp only [List.mem_cons] at h ⊢
      tauto
    · rw [if_neg hc]
      have h := ih b
      simp only [List.mem_cons] at h ⊢
      tauto

/-- C5 amended.  get_best_server computes first_best_tried: the first tried
arm of maximal success_rate, or the first port of the tier when no arm has
been tried; untried arms are never treated as ties at rate 0.  In
particular the result is always a port of the (non-empty) configured
tier. -/
theorem get_best_server_characterisation (stats : StatsMap) (ports : List Nat)
    (h : ports ≠ []) :
    get_best_server stats ports = first_best_tried stats ports ∧
    get_best_server stats ports ∈ ports := by
  have heq : get_best_server stats ports = first_best_tried stats ports :=
    best_scan_init stats ports (ports.headD 0)
  refine ⟨heq, ?_⟩
  rw [heq]
  unfold first_best_tried first_best_aux
  rcases hf : ports.filter (fun p => decide (0 < (stats p).num_requests)) with _ | ⟨q, rest⟩
  · rcases ports with _ | ⟨a, t⟩
    · exact absurd rfl h
    · exact List.mem_cons_self a t
  · have hmem := rate_foldl_mem stats rest q
    have hsub : q :: rest ⊆ ports := by
      intro x hx
      rw [← hf] at hx
      exact List.mem_of_mem_filter hx
    exact hsub hmem

/-- Closed instance for the amended C5 theorem: T1 is non-empty, and on
statsC5 the returned port 4001 is the first maximal tried arm and lies in
the tier. -/
theorem get_best_server_characterisation_witness :
    T1_PORTS ≠ [] ∧
    (get_best_server statsC5 T1_PORTS = first_best_tried statsC5 T1_PORTS ∧
      get_best_server statsC5 T1_PORTS ∈ T1_PORTS) :=
  ⟨by decide, get_best_server_characterisation statsC5 T1_PORTS (by decide)⟩

/-- constants.MAX_ATTEMPTS. -/
def MAX_ATTEMPTS : Nat := 10

/-- constants.PENALTY_FREE_ATTEMPTS. -/
def PENALTY_FREE_ATTEMPTS : Nat := 3

/-- The strategy contract as the dispatcher consumes it (root.py lines 41,
45, 57, 60, 62): select_server takes the excluded set and the attempt index
and may mutate private state (v1/v2/v3 bump a counter), get_best_server and
update as in BaseStrategy, and update_rate_limited is an optional
capability, present exactly when hasattr(strategy, "update_rate_limited")
holds. -/
structure StrategyOps (σ : Type) where
  select_server : σ → List Nat → Nat → Nat × σ
  get_best_server : σ → Nat
  update : σ → Nat → Bool → ℚ → σ
  update_rate_limited : Option (σ → Nat → ℚ → σ)

/-- tried_servers.add(port) on the Python set, modelled on a duplicate-free
list. -/
def insertTried (tried : List Nat) (p : Nat) : List Nat :=
  if p ∈ tried then tried else p :: tried

/-- Outcome routing of root.py lines 53 to 62: RATE_LIMITED goes to
update_rate_limited when the strategy has it and degrades to
update(port, False, latency) otherwise; any other outcome goes to
update(port, success, latency) with success = (outcome == SUCCESS). -/
def applyOutcome {σ : Type} (ops : StrategyOps σ) (s : σ) (port : Nat)
    (oc : RequestOutcome) (latency : ℚ) : σ :=
  if oc = .RATE_LIMITED then
    match ops.update_rate_limited with
    | some f => f s port latency
    | none => ops.update s port false latency
  else
    ops.update s port (decide (oc = .SUCCESS)) latency

/-- What the attempt loop of post_root produces: the response status, the
final strategy state, how many times select_server and get_best_server were
called, and the tried_servers set. -/
structure DispatchResult (σ : Type) where
  status : String
  final : σ
  select_calls : Nat
  best_calls : Nat
  tried : List Nat

/-- The while loop of post_root (root.py lines 38 to 94), with fuel =
MAX_ATTEMPTS - attempt.  Attempts below PENALTY_FREE_ATTEMPTS pick via
select_server on the tried set and insert the chosen port; later attempts
pick via get_best_server without touching the tried set.  The downstream
oracle send gives the outcome of the single call made on each attempt
index, and lat its latency.  The loop returns "ok" at the first SUCCESS and
"error" when the fuel is exhausted. -/
def dispatch_loop {σ : Type} (ops : StrategyOps σ) (send : Nat → RequestOutcome)
    (lat : Nat → ℚ) :
    Nat → Nat → σ → List Nat → Nat → Nat → DispatchResult σ
  | 0, _, s, tried, sc, bc =>
    { status := "error", final := s, select_calls := sc, best_calls := bc, tried := tried }
  | fuel + 1, attempt, s, tried, sc, bc =>
    let step :=
      if attempt < PENALTY_FREE_ATTEMPTS then
        let ps := ops.select_server s tried attempt
        (ps.1, ps.2, insertTried tried ps.1, sc + 1, bc)
      else
        (ops.get_best_server s, s, tried, sc, bc + 1)
    let oc := send attempt
    let s3 := applyOutcome ops step.2.1 step.1 oc (lat attempt)
    if oc = .SUCCESS then
      { status := "ok", final := s3, select_calls := step.2.2.2.1,
        best_calls := step.2.2.2.2, tried := step.2.2.1 }
    else
      dispatch_loop ops send lat fuel (attempt + 1) s3 step.2.2.1 step.2.2.2.1 step.2.2.2.2

/-- post_root (root.py): the loop started with attempt = 0 and an empty
tried set, with fuel MAX_ATTEMPTS. -/
def post_root {σ : Type} (ops : StrategyOps σ) (send : Nat → RequestOutcome)
    (lat : Nat → ℚ) (s0 : σ) : DispatchResult σ :=
  dispatch_loop ops send lat MAX_ATTEMPTS 0 s0 [] 0 0

lemma insertTried_length (t : List Nat) (p : Nat) :
    (insertTried t p).length ≤ t.length + 1 := by
  unfold insertTried
  split
  · omega
  · simp

lemma tried3_length (x y z : Nat) :
    (insertTried (insertTried (insertTried [] x) y) z).length ≤ 3 := by
  have h1 := insertTried_length ([] : List Nat) x
  have h2 := insertTried_length (insertTried [] x) y
  have h3 := insertTried_length (insertTried (insertTried [] x) y) z
  simp only [List.length_nil] at h1
  omega

lemma exists_shift (send : Nat → RequestOutcome) (attempt n : Nat)
    (hoc : ¬send attempt = .SUCCESS) :
    (∃ j, j < n ∧ send (attempt + 1 + j) = .SUCCESS) ↔
      ∃ j, j < n + 1 ∧ send (attempt + j) = .SUCCESS := by
  constructor
  · rintro ⟨j, hj, hs⟩
    exact ⟨j + 1, by omega, by rwa [show attempt + (j + 1) = attempt + 1 + j by omega]⟩
  · rintro ⟨j, hj, hs⟩
    match j with
    | 0 => exact absurd hs (by simpa using hoc)
    | k + 1 =>
      exact ⟨k, by omega, by rwa [show attempt + 1 + k = attempt + (k + 1) by omega]⟩

lemma dispatch_loop_status {σ : Type} (ops : StrategyOps σ)
    (send : Nat → RequestOutcome) (lat : Nat → ℚ) :
    ∀ (fuel attempt : Nat) (s : σ) (tried : List Nat) (sc bc : Nat),
      ((dispatch_loop ops send lat fuel attempt s tried sc bc).status = "ok" ↔
        ∃ j, j < fuel ∧ send (attempt + j) = .SUCCESS) := by
  intro fuel
  induction fuel with
  | zero =>
    intro attempt s tried sc bc
    simp [dispatch_loop]
  | succ n ih =>
    intro attempt s tried sc bc
    by_cases hoc : send attempt = .SUCCESS
    · simp only [dispatch_loop, hoc, if_pos]
      constructor
      · intro _; exact ⟨0, by omega, by simpa using hoc⟩
      · intro _; trivial
    · simp only [dispatch_loop, if_neg hoc]
      rw [ih (attempt + 1)]
      exact exists_shift send attempt n hoc

/-- C4.  The penalty-free prefix of the dispatcher: for a request whose
first SUCCESS is on attempt index 4, select_server is called exactly 3
times (attempts 0..2, each inserting the chosen port into the tried set),
get_best_server exactly twice (attempts 3 and 4), the tried set ends with
at most 3 distinct ports, and the response is "ok"; and in general the loop
returns "ok" exactly when some attempt among the MAX_ATTEMPTS = 10 indices
would succeed, stopping at the first SUCCESS. -/
theorem dispatcher_penalty_free_phase {σ : Type} (ops : StrategyOps σ)
    (send : Nat → RequestOutcome) (lat : Nat → ℚ) (s0 : σ)
    (h4 : send 4 = .SUCCESS) (hpre : ∀ i, i < 4 → ¬send i = .SUCCESS) :
    (post_root ops send lat s0).select_calls = 3 ∧
    (post_root ops send lat s0).best_calls = 2 ∧
    (post_root ops send lat s0).tried.length ≤ 3 ∧
    (post_root ops send lat s0).status = "ok" ∧
    (∀ (send2 : Nat → RequestOutcome) (lat2 : Nat → ℚ) (s1 : σ),
      ((post_root ops send2 lat2 s1).status = "ok" ↔
        ∃ j, j < MAX_ATTEMPTS ∧ send2 j = .SUCCESS)) := by
  have h0 := hpre 0 (by norm_num)
  have h1 := hpre 1 (by norm_num)
  have h2 := hpre 2 (by norm_num)
  have h3 := hpre 3 (by norm_num)
  have hgen : ∀ (send2 : Nat → RequestOutcome) (lat2 : Nat → ℚ) (s1 : σ),
      ((post_root ops send2 lat2 s1).status = "ok" ↔
        ∃ j, j < MAX_ATTEMPTS ∧ send2 j = .SUCCESS) := by
    intro send2 lat2 s1
    have := dispatch_loop_status ops send2 lat2 MAX_ATTEMPTS 0 s1 [] 0 0
    simpa [post_root] using this
  refine ⟨?_, ?_, ?_, ?_, hgen⟩ <;>
    norm_num [post_root, MAX_ATTEMPTS, PENALTY_FREE_ATTEMPTS, dispatch_loop,
      h0, h1, h2, h3, h4]
  exact tried3_length _ _ _

/-- A trivial strategy instance used to witness the dispatcher theorem. -/
def trivialOps : StrategyOps Unit :=
  { select_server := fun s _ attempt => (4000 + attempt, s)
    get_best_server := fun _ => 4000
    update := fun s _ _ _ => s
    update_rate_limited := none }

/-- An outcome stream whose first SUCCESS is at attempt index 4. -/
def sendC4 : Nat → RequestOutcome := fun i => if i = 4 then .SUCCESS else .FAILURE

/-- Closed instance of the C4 theorem at a concrete strategy and outcome
stream. -/
theorem dispatcher_penalty_free_phase_witness :
    sendC4 4 = .SUCCESS ∧ (∀ i, i < 4 → ¬sendC4 i = .SUCCESS) ∧
    ((post_root trivialOps sendC4 (fun _ => 1) ()).select_calls = 3 ∧
      (post_root trivialOps sendC4 (fun _ => 1) ()).best_calls = 2 ∧
      (post_root trivialOps sendC4 (fun _ => 1) ()).tried.length ≤ 3 ∧
      (post_root trivialOps sendC4 (fun _ => 1) ()).status = "ok" ∧
      (∀ (send2 : Nat → RequestOutcome) (lat2 : Nat → ℚ) (s1 : Unit),
        ((post_root trivialOps send2 lat2 s1).status = "ok" ↔
          ∃ j, j < MAX_ATTEMPTS ∧ send2 j = .SUCCESS))) :=
  ⟨by decide, by decide,
    dispatcher_penalty_free_phase trivialOps sendC4 (fun _ => 1) ()
      (by decide) (by decide)⟩

/-- The dict-level update of ThompsonStrategy.update (v4_thompson.py lines
56 to 75), shared verbatim by v5/v6/v7/v8 for the stored stats: the entry of
the updated port goes through thompson_update, every other entry is
untouched. -/
def v4_update (st : StatsMap) (port : Nat) (success : Bool) (latency : ℚ) : StatsMap :=
  fun p => if p = port then thompson_update (st p) success latency else st p

/-- The stats-mutating operations available on a Thompson-family strategy
after construction: update (SUCCESS and FAILURE outcomes) and, on v6/v7/v8,
update_rate_limited (429 outcomes).  select_server and get_best_server never
write the stats dict. -/
inductive ThompsonOp
  | upd (port : Nat) (success : Bool) (latency : ℚ)
  | updRL (port : Nat) (latency : ℚ) (now : ℚ)

/-- Run one Thompson-family operation on the stats dict.  When
update_rate_limited raises (which it does on every reachable state, see C1)
the dict is unchanged: the AttributeError fires before any assignment. -/
def applyThompsonOp (st : StatsMap) : ThompsonOp → StatsMap
  | .upd port success latency => v4_update st port success latency
  | .updRL port latency now =>
    match update_rate_limited (st port) latency now with
    | .ok s => fun p => if p = port then s else st p
    | .error _ => st

/-- The stats dict of a Thompson-family strategy after any sequence of
post-construction operations. -/
def runThompsonOps (ops : List ThompsonOp) : StatsMap :=
  ops.foldl applyThompsonOp initStats

/-- The per-arm posterior bookkeeping invariant of the Thompson family:
alpha and beta mirror the success and failure counters over the Beta(1,1)
prior. -/
def PosteriorInv (s : ServerStats) : Prop :=
  s.alpha = (s.num_success : ℚ) + 1 ∧ s.beta = (s.num_failure : ℚ) + 1

lemma posteriorInv_init (p : Nat) : PosteriorInv (ServerStats.init p) := by
  constructor <;> simp [ServerStats.init]

lemma posteriorInv_thompson_update (s : ServerStats) (success : Bool) (lat : ℚ)
    (h : PosteriorInv s) : PosteriorInv (thompson_update s success lat) := by
  obtain ⟨h1, h2⟩ := h
  cases success <;> constructor <;>
    simp [thompson_update, update_stats, h1, h2]

lemma posteriorInv_update_rate_limited (s s2 : ServerStats) (lat now : ℚ)
    (heq : update_rate_limited s lat now = .ok s2) (h : PosteriorInv s) :
    PosteriorInv s2 := by
  obtain ⟨h1, h2⟩ := h
  rcases hn : s.num_rate_limited with _ | n
  · rw [update_rate_limited, hn] at heq
    cases heq
  · rw [update_rate_limited, hn] at heq
    cases heq
    exact ⟨h1, h2⟩

lemma applyThompsonOp_inv (st : StatsMap) (h : ∀ p, PosteriorInv (st p))
    (op : ThompsonOp) (p : Nat) : PosteriorInv (applyThompsonOp st op p) := by
  cases op with
  | upd port success latency =>
    simp only [applyThompsonOp, v4_update]
    split
    · exact posteriorInv_thompson_update _ _ _ (h p)
    · exact h p
  | updRL port latency now =>
    simp only [applyThompsonOp]
    rcases heq : update_rate_limited (st port) latency now with e | s2
    · exact h p
    · show PosteriorInv (if p = port then s2 else st p)
      split
      · exact posteriorInv_update_rate_limited _ _ _ _ heq (h port)
      · exact h p

lemma runThompsonOps_inv (ops : List ThompsonOp) :
    ∀ st : StatsMap, (∀ p, PosteriorInv (st p)) →
      ∀ p, PosteriorInv ((ops.foldl applyThompsonOp st) p) := by
  induction ops with
  | nil => intro st h p; simpa using h p
  | cons op rest ih =>
    intro st h p
    simp only [List.foldl_cons]
    exact ih _ (fun q => applyThompsonOp_inv st h op q) p

/-- C6.  After any sequence of operations on a Thompson-family strategy
(v4..v8), every arm satisfies alpha >= 1, beta >= 1, alpha = num_success + 1
and beta = num_failure + 1. -/
theorem thompson_posterior_invariant (ops : List ThompsonOp) (p : Nat) :
    1 ≤ (runThompsonOps ops p).alpha ∧ 1 ≤ (runThompsonOps ops p).beta ∧
    (runThompsonOps ops p).alpha = ((runThompsonOps ops p).num_success : ℚ) + 1 ∧
    (runThompsonOps ops p).beta = ((runThompsonOps ops p).num_failure : ℚ) + 1 := by
  simp only [runThompsonOps]
  obtain ⟨h1, h2⟩ := runThompsonOps_inv ops initStats (fun q => posteriorInv_init q) p
  refine ⟨?_, ?_, h1, h2⟩
  · rw [h1]
    have := Nat.cast_nonneg (α := ℚ) ((ops.foldl applyThompsonOp initStats p).num_success)
    linarith
  · rw [h2]
    have := Nat.cast_nonneg (α := ℚ) ((ops.foldl applyThompsonOp initStats p).num_failure)
    linarith

/-- ThompsonStrategy.select_server (v4_thompson.py lines 26 to 54): filter
the tier ports by the excluded set, fall back to get_best_server when
nothing is left, otherwise the Thompson argmax over one sample per port. -/
def v4_select_server (st : StatsMap) (ports excluded : List Nat)
    (sample : Nat → ℚ) : Nat :=
  match ports.filter (fun p => decide (p ∉ excluded)) with
  | [] => get_best_server st ports
  | p :: rest => scan_beta_argmax sample (p :: rest) p (-1)

/-- The v4 strategy object over tier T1, as the dispatcher sees it:
ThompsonStrategy defines no update_rate_limited attribute, so the
capability is absent. -/
def v4_ops (sample : Nat → ℚ) : StrategyOps StatsMap :=
  { select_server := fun s excluded _attempt => (v4_select_server s T1_PORTS excluded sample, s)
    get_best_server := fun s => get_best_server s T1_PORTS
    update := v4_update
    update_rate_limited := none }

/-- Ten consecutive RATE_LIMITED outcomes on arm 4000, each routed through
the dispatcher outcome branch of root.py lines 53 to 62, against the v4
strategy. -/
def tenRateLimitedV4 : StatsMap :=
  (fun st => applyOutcome (v4_ops (fun _ => 0)) st 4000 .RATE_LIMITED 2)^[10] initStats

lemma applyOutcome_v4_rl (st : StatsMap) :
    applyOutcome (v4_ops (fun _ => 0)) st 4000 .RATE_LIMITED 2 4000 =
      thompson_update (st 4000) false 2 := by
  simp [applyOutcome, v4_ops, v4_update]

lemma thompson_update_false_beta (s : ServerStats) (lat : ℚ) :
    (thompson_update s false lat).beta = s.beta + 1 := by
  simp [thompson_update, update_stats]

lemma thompson_update_false_num_failure (s : ServerStats) (lat : ℚ) :
    (thompson_update s false lat).num_failure = s.num_failure + 1 := by
  simp [thompson_update, update_stats]

lemma iterate_rate_limited_v4 (n : Nat) :
    (((fun st => applyOutcome (v4_ops (fun _ => 0)) st 4000 .RATE_LIMITED 2)^[n]
        initStats) 4000).beta = 1 + (n : ℚ) ∧
    (((fun st => applyOutcome (v4_ops (fun _ => 0)) st 4000 .RATE_LIMITED 2)^[n]
        initStats) 4000).num_failure = n := by
  induction n with
  | zero => simp [initStats, ServerStats.init]
  | succ k ih =>
    obtain ⟨ih1, ih2⟩ := ih
    rw [Function.iterate_succ_apply']
    constructor
    · simp only [applyOutcome_v4_rl, thompson_update_false_beta, ih1]
      push_cast
      ring
    · simp only [applyOutcome_v4_rl, thompson_update_false_num_failure, ih2]

/-- C8.  A strategy without the update_rate_limited capability receives a
RATE_LIMITED outcome as update(port, False, latency); consequently ten
consecutive 429s on arm 4000 under v4 leave beta = 11 and num_failure =
10. -/
theorem rate_limited_degrades_to_failure {σ : Type} (ops : StrategyOps σ)
    (h : ops.update_rate_limited = none) :
    (∀ (s : σ) (port : Nat) (latency : ℚ),
      applyOutcome ops s port .RATE_LIMITED latency = ops.update s port false latency) ∧
    (tenRateLimitedV4 4000).beta = 11 ∧
    (tenRateLimitedV4 4000).num_failure = 10 := by
  refine ⟨?_, ?_, ?_⟩
  · intro s port latency
    simp [applyOutcome, h]
  · have := (iterate_rate_limited_v4 10).1
    rw [tenRateLimitedV4, this]
    norm_num
  · exact (iterate_rate_limited_v4 10).2

/-- Closed instance of the C8 theorem at the v4 strategy itself, whose
update_rate_limited capability is indeed absent. -/
theorem rate_limited_degrades_to_failure_witness :
    (v4_ops (fun _ => 0)).update_rate_limited = none ∧
    ((∀ (s : StatsMap) (port : Nat) (latency : ℚ),
        applyOutcome (v4_ops (fun _ => 0)) s port .RATE_LIMITED latency =
          (v4_ops (fun _ => 0)).update s port false latency) ∧
      (tenRateLimitedV4 4000).beta = 11 ∧
      (tenRateLimitedV4 4000).num_failure = 10) :=
  ⟨rfl, rate_limited_degrades_to_failure (v4_ops (fun _ => 0)) rfl⟩

/-- metrics.ServerMetrics (metrics.py lines 13 to 22). -/
structure ServerMetrics where
  port : Nat
  num_requests : Nat
  num_success : Nat
  num_failure : Nat
  num_rate_limited : Nat
  total_latency_ms : ℚ
deriving DecidableEq, Repr

/-- A freshly inserted ServerMetrics(port=port). -/
def ServerMetrics.init (port : Nat) : ServerMetrics :=
  { port := port, num_requests := 0, num_success := 0, num_failure := 0,
    num_rate_limited := 0, total_latency_ms := 0 }

/-- metrics.Metrics (metrics.py lines 48 to 69).  The per_server dict starts
empty and record_request inserts ServerMetrics(port=port) on first touch;
since a fresh entry is all zeros, the dict is modelled as a total function
defaulting to the fresh entry, which agrees with the source on every
counter. -/
structure Metrics where
  total_requests : Nat
  total_success : Nat
  total_failure : Nat
  total_retries : Nat
  total_rate_limited : Nat
  total_penalty : Nat
  latencies : List ℚ
  per_server : Nat → ServerMetrics
  last_update : ℚ

/-- Metrics() as built by the MetricsCollector constructor (and reset). -/
def Metrics.init : Metrics :=
  { total_requests := 0, total_success := 0, total_failure := 0,
    total_retries := 0, total_rate_limited := 0, total_penalty := 0,
    latencies := [], per_server := fun p => ServerMetrics.init p,
    last_update := 0 }

/-- MetricsCollector.record_request (metrics.py lines 124 to 165): bump the
per-server entry (exactly one of the three outcome buckets), bump
total_retries when attempt > 0 and total_penalty when attempt >= 3, append
the latency. -/
def record_request (m : Metrics) (port : Nat) (success : Bool) (latency_ms : ℚ)
    (attempt : Nat) (rate_limited : Bool) : Metrics :=
  let sm0 := m.per_server port
  let sm1 := { sm0 with
               num_requests := sm0.num_requests + 1
               total_latency_ms := sm0.total_latency_ms + latency_ms }
  let sm2 :=
    if rate_limited then { sm1 with num_rate_limited := sm1.num_rate_limited + 1 }
    else if success then { sm1 with num_success := sm1.num_success + 1 }
    else { sm1 with num_failure := sm1.num_failure + 1 }
  { m with
    per_server := fun p => if p = port then sm2 else m.per_server p
    total_rate_limited :=
      if rate_limited then m.total_rate_limited + 1 else m.total_rate_limited
    total_retries := if 0 < attempt then m.total_retries + 1 else m.total_retries
    total_penalty := if 3 ≤ attempt then m.total_penalty + 1 else m.total_penalty
    latencies := m.latencies ++ [latency_ms] }

/-- MetricsCollector.record_request_complete (metrics.py lines 167 to 178). -/
def record_request_complete (m : Metrics) (success : Bool) (now : ℚ) : Metrics :=
  { m with
    total_requests := m.total_requests + 1
    total_success := if success then m.total_success + 1 else m.total_success
    total_failure := if success then m.total_failure else m.total_failure + 1
    last_update := now }

/-- One completed request as the dispatcher drives the collector: the number
of attempts it made (indices 0 .. attempts-1, each calling record_request
with its attempt index), the per-attempt data, and the final
record_request_complete call. -/
structure RequestLog where
  attempts : Nat
  port : Nat → Nat
  success : Nat → Bool
  latency : Nat → ℚ
  rate_limited : Nat → Bool
  final_success : Bool
  completed_at : ℚ

/-- Feed one completed request through the collector. -/
def runRequest (m : Metrics) (r : RequestLog) : Metrics :=
  record_request_complete
    ((List.range r.attempts).foldl
      (fun acc i => record_request acc (r.port i) (r.success i) (r.latency i) i
        (r.rate_limited i)) m)
    r.final_success r.completed_at

/-- Feed a sequence of completed requests through a fresh collector. -/
def runRequests (rs : List RequestLog) : Metrics :=
  rs.foldl runRequest Metrics.init

lemma record_request_total_retries (m : Metrics) (port : Nat) (success : Bool)
    (latency_ms : ℚ) (attempt : Nat) (rate_limited : Bool) :
    (record_request m port success latency_ms attempt rate_limited).total_retries =
      m.total_retries + (if 0 < attempt then 1 else 0) := by
  simp only [record_request]
  split <;> simp

lemma record_request_total_penalty (m : Metrics) (port : Nat) (success : Bool)
    (latency_ms : ℚ) (attempt : Nat) (rate_limited : Bool) :
    (record_request m port success latency_ms attempt rate_limited).total_penalty =
      m.total_penalty + (if 3 ≤ attempt then 1 else 0) := by
  simp only [record_request]
  split <;> simp

lemma attempts_fold_retries (r : RequestLog) (a : Nat) :
    ∀ m : Metrics,
      ((List.range a).foldl
        (fun acc i => record_request acc (r.port i) (r.success i) (r.latency i) i
          (r.rate_limited i)) m).total_retries = m.total_retries + (a - 1) := by
  induction a with
  | zero => intro m; simp
  | succ n ih =>
    intro m
    rw [List.range_succ, List.foldl_append, List.foldl_cons, List.foldl_nil,
      record_request_total_retries, ih m]
    rcases Nat.eq_zero_or_pos n with h | h
    · subst h; simp
    · rw [if_pos h]; omega

lemma attempts_fold_penalty (r : RequestLog) (a : Nat) :
    ∀ m : Metrics,
      ((List.range a).foldl
        (fun acc i => record_request acc (r.port i) (r.success i) (r.latency i) i
          (r.rate_limited i)) m).total_penalty = m.total_penalty + (a - 3) := by
  induction a with
  | zero => intro m; simp
  | succ n ih =>
    intro m
    rw [List.range_succ, List.foldl_append, List.foldl_cons, List.foldl_nil,
      record_request_total_penalty, ih m]
    rcases Nat.lt_or_ge n 3 with h | h
    · rw [if_neg (by omega)]; omega
    · rw [if_pos h]; omega

lemma runRequest_totals (m : Metrics) (r : RequestLog) :
    (runRequest m r).total_retries = m.total_retries + (r.attempts - 1) ∧
    (runRequest m r).total_penalty = m.total_penalty + (r.attempts - 3) := by
  unfold runRequest
  constructor
  · show (record_request_complete _ _ _).total_retries = _
    simp only [record_request_complete]
    exact attempts_fold_retries r r.attempts m
  · show (record_request_complete _ _ _).total_penalty = _
    simp only [record_request_complete]
    exact attempts_fold_penalty r r.attempts m

lemma runRequests_totals (rs : List RequestLog) :
    ∀ m : Metrics,
      (rs.foldl runRequest m).total_retries =
        m.total_retries + (rs.map (fun r => r.attempts - 1)).sum ∧
      (rs.foldl runRequest m).total_penalty =
        m.total_penalty + (rs.map (fun r => r.attempts - 3)).sum := by
  induction rs with
  | nil => intro m; simp
  | cons r rest ih =>
    intro m
    simp only [List.foldl_cons, List.map_cons, List.sum_cons]
    obtain ⟨ih1, ih2⟩ := ih (runRequest m r)
    obtain ⟨h1, h2⟩ := runRequest_totals m r
    constructor
    · rw [ih1, h1]; omega
    · rw [ih2, h2]; omega

/-- C7.  After any sequence of completed requests, total_retries is the sum
over requests of max(0, attempts - 1) and total_penalty the sum of
max(0, attempts - 3); on Nat the truncated subtractions a - 1 and a - 3 are
exactly those maxima. -/
theorem metrics_retries_and_penalty (rs : List RequestLog) :
    (runRequests rs).total_retries = (rs.map (fun r => r.attempts - 1)).sum ∧
    (runRequests rs).total_penalty = (rs.map (fun r => r.attempts - 3)).sum := by
  obtain ⟨h1, h2⟩ := runRequests_totals rs Metrics.init
  rw [runRequests, h1, h2]
  constructor <;> simp [Metrics.init]

/-- The calls the dispatcher makes on the collector, in any order: one
record_request per attempt and one record_request_complete per completed
request. -/
inductive MetricsOp
  | attemptRec (port : Nat) (success : Bool) (latency : ℚ) (attempt : Nat)
      (rate_limited : Bool)
  | complete (success : Bool) (now : ℚ)

/-- Apply one collector call. -/
def applyMetricsOp (m : Metrics) : MetricsOp → Metrics
  | .attemptRec port success latency attempt rl =>
    record_request m port success latency attempt rl
  | .complete success now => record_request_complete m success now

/-- The collector state after any sequence of calls on a fresh collector. -/
def runMetricsOps (ops : List MetricsOp) : Metrics :=
  ops.foldl applyMetricsOp Metrics.init

/-- The C10 invariant: per-server bucket partition and global completion
partition. -/
def MetricsInv (m : Metrics) : Prop :=
  (∀ p, (m.per_server p).num_success + (m.per_server p).num_failure +
      (m.per_server p).num_rate_limited = (m.per_server p).num_requests) ∧
  m.total_success + m.total_failure = m.total_requests

lemma metricsInv_init : MetricsInv Metrics.init := by
  constructor
  · intro p; rfl
  · rfl

lemma metricsInv_record_request (m : Metrics) (port : Nat) (success : Bool)
    (latency : ℚ) (attempt : Nat) (rl : Bool) (h : MetricsInv m) :
    MetricsInv (record_request m port success latency attempt rl) := by
  obtain ⟨hps, hg⟩ := h
  constructor
  · intro p
    simp only [record_request]
    split
    · rcases rl with _ | _ <;> rcases success with _ | _ <;>
        simp <;> have := hps port <;> omega
    · exact hps p
  · simpa [record_request] using hg

lemma metricsInv_record_request_complete (m : Metrics) (success : Bool) (now : ℚ)
    (h : MetricsInv m) : MetricsInv (record_request_complete m success now) := by
  obtain ⟨hps, hg⟩ := h
  constructor
  · intro p
    simpa [record_request_complete] using hps p
  · rcases success with _ | _ <;> simp [record_request_complete] <;> omega

lemma runMetricsOps_inv (ops : List MetricsOp) :
    ∀ m : Metrics, MetricsInv m → MetricsInv (ops.foldl applyMetricsOp m) := by
  induction ops with
  | nil => intro m h; simpa using h
  | cons op rest ih =>
    intro m h
    simp only [List.foldl_cons]
    apply ih
    cases op with
    | attemptRec port success latency attempt rl =>
      exact metricsInv_record_request m port success latency attempt rl h
    | complete success now =>
      exact metricsInv_record_request_complete m success now h

/-- C10.  After any sequence of collector calls, every per-server entry
satisfies num_success + num_failure + num_rate_limited = num_requests, and
the globals satisfy total_success + total_failure = total_requests (an
equality, not just the inequality stated in the spec). -/
theorem metrics_counter_partition (ops : List MetricsOp) :
    (∀ p, ((runMetricsOps ops).per_server p).num_success +
        ((runMetricsOps ops).per_server p).num_failure +
        ((runMetricsOps ops).per_server p).num_rate_limited =
        ((runMetricsOps ops).per_server p).num_requests) ∧
    (runMetricsOps ops).total_success + (runMetricsOps ops).total_failure =
      (runMetricsOps ops).total_requests :=
  runMetricsOps_inv ops Metrics.init metricsInv_init

end FLB
